import Mathlib

/-!
# Verification of the Weather_Drone firmware (src/src/main.cpp)

Shallow embedding of the single-file Arduino sketch: a polling loop that
drains a GPS byte stream, and — when authentication is ready and a 10-second
millisecond gate fires — snapshots a BME280 sensor and the GPS fix and issues
asynchronous key-value uploads to a remote database.

Modelling conventions:
* `unsigned long` millisecond counters are `Nat` reduced modulo `2^32`;
  the C unsigned subtraction `a - b` is `usub32`.
* C `float`/`double` sensor values are represented as `ℚ` (no claim here
  depends on floating-point rounding; the only arithmetic performed on them
  in the source is division by 100).
* Vendor SDK objects (`FirebaseApp`, `TinyGPSPlus`, serial ports) are opaque
  collaborators: their per-iteration observable outputs are inputs of the
  loop step (`Env`), and the incremental GPS parser is an arbitrary step
  function `enc` over an abstract parser state holding the decoded fix.
* Observable effects (serial log lines, `Database.set` upload calls, the
  Wi-Fi join request) are collected in an output trace. Purely diagnostic
  numeric `Serial.println` lines inside the tick are not modelled; the
  string log lines that mark control-flow ("User UID: …", "GPS location not
  valid yet", "Writing to: …") are.
-/

namespace WeatherDrone

/-- The modulus `2^32` of the Arduino `unsigned long` / `millis()` counter. -/
def wordMod : Nat := 2 ^ 32

/-- C unsigned 32-bit subtraction `a - b` (wraparound semantics). -/
def usub32 (a b : Nat) : Nat := (a % wordMod + (wordMod - b % wordMod)) % wordMod

/-- The constant `sendInterval = 10000` (main.cpp line 45). -/
def sendInterval : Nat := 10000

/-- The compiled-in `WIFI_SSID` (main.cpp line 17). -/
def WIFI_SSID : String := "REPLACE_WITH_YOUR_SSID"

/-- The compiled-in `WIFI_PASSWORD` (main.cpp line 18). -/
def WIFI_PASSWORD : String := "REPLACE_WITH_YOUR_PASSWORD"

/-- The telemetry gate of `loop()` (main.cpp lines 146-150): given the stored
`lastSendTime` and the current `millis()` reading, decide whether the tick
fires and return the updated `lastSendTime`. -/
def shouldTick (lastTick now : Nat) : Bool × Nat :=
  if sendInterval ≤ usub32 now lastTick then (true, now) else (false, lastTick)

/-- Modelled from the spec: the accumulated state of the vendor incremental
GPS parser (`TinyGPSPlus gps`), holding the validity flag and the decoded
fix fields that `loop()` reads (`gps.location.isValid()`, `gps.location.lat()`,
`gps.location.lng()`, `gps.altitude.meters()`, `gps.speed.kmph()`,
`gps.hdop.value()`, `gps.satellites.value()`, `gps.date.*`, `gps.time.*`).
The parsing itself (`gps.encode`) is vendor code and is kept abstract as a
step function over this state. -/
structure GpsParser where
  valid : Bool
  lat : ℚ
  lng : ℚ
  altMeters : ℚ
  speedKmph : ℚ
  hdopValue : Int
  satellitesValue : Int
  year : Nat
  month : Nat
  day : Nat
  hour : Nat
  minute : Nat
  second : Nat
deriving DecidableEq

/-- A scalar value passed to `Database.set<T>` (T one of float, double, int,
String). -/
inductive Value where
  | vfloat (x : ℚ)
  | vdouble (x : ℚ)
  | vint (n : Int)
  | vstr (s : String)
deriving DecidableEq

/-- One asynchronous `Database.set` call: remote path, value, task tag. -/
structure Upload where
  path : String
  value : Value
  tag : String
deriving DecidableEq

/-- An observable effect of the program. -/
inductive Output where
  | serialLine (s : String)
  | wifiBegin (ssid pw : String)
  | upload (u : Upload)
deriving DecidableEq

/-- The global mutable variables of main.cpp (lines 44-78). -/
structure State where
  lastSendTime : Nat
  uid : String
  databasePath : String
  tempPath : String
  humPath : String
  presPath : String
  latPath : String
  lngPath : String
  altPath : String
  speedPath : String
  hdopPath : String
  satellitesPath : String
  timeUTCPath : String
  temperature : ℚ
  humidity : ℚ
  pressure : ℚ
  latitude : ℚ
  longitude : ℚ
  altitude : ℚ
  speed : ℚ
  hdop : ℚ
  satellites : Int
  timeUTC : String
  gps : GpsParser
deriving DecidableEq

/-- The default-initialized GPS parser state: no fix decoded yet. -/
def initialGps : GpsParser :=
  { valid := false, lat := 0, lng := 0, altMeters := 0, speedKmph := 0,
    hdopValue := 0, satellitesValue := 0,
    year := 0, month := 0, day := 0, hour := 0, minute := 0, second := 0 }

/-- The globals as default-initialized at startup: `lastSendTime = 0`
(main.cpp line 44), empty strings, zero readings, no GPS fix. -/
def initialState : State :=
  { lastSendTime := 0, uid := "", databasePath := "",
    tempPath := "", humPath := "", presPath := "", latPath := "",
    lngPath := "", altPath := "", speedPath := "", hdopPath := "",
    satellitesPath := "", timeUTCPath := "",
    temperature := 0, humidity := 0, pressure := 0,
    latitude := 0, longitude := 0, altitude := 0, speed := 0, hdop := 0,
    satellites := 0, timeUTC := "", gps := initialGps }

/-- The per-iteration inputs provided by the environment and the vendor
SDKs: `app.ready()`, `app.getUid()`, `millis()`, the bytes currently
available on the GPS serial port, and the current BME280 readings
(`bme.readTemperature()`, `bme.readHumidity()`, raw `bme.readPressure()`). -/
structure Env where
  ready : Bool
  appUid : String
  millis : Nat
  gpsBytes : List Nat
  bmeTemperature : ℚ
  bmeHumidity : ℚ
  bmePressureRaw : ℚ

/-- The drain loop `while (gpsSerial.available() > 0) gps.encode(gpsSerial.read());`
(main.cpp lines 136-139): feed every available byte to the parser. -/
def drainGps (enc : GpsParser → Nat → GpsParser) (bytes : List Nat)
    (g : GpsParser) : GpsParser :=
  bytes.foldl enc g

/-- The UTC time string `String(gps.date.year()) + "/" + … + String(gps.time.second())`
(main.cpp lines 185-190). -/
def fmtTimeUTC (g : GpsParser) : String :=
  toString g.year ++ "/" ++ toString g.month ++ "/" ++ toString g.day ++ "," ++
  toString g.hour ++ ":" ++ toString g.minute ++ ":" ++ toString g.second

/-- The body of the telemetry tick (main.cpp lines 152-230), entered after
`lastSendTime` has been updated: recompute uid and the ten remote paths,
snapshot the BME280 sensor, snapshot the GPS fix when valid, and issue the
upload calls (three sensor fields always, seven GPS fields when the fix is
valid). -/
def tickBody (env : Env) (s : State) : State × List Output :=
  let uid := env.appUid
  let databasePath := "UsersData/" ++ uid
  let tempPath := databasePath ++ "/temperature"
  let humPath := databasePath ++ "/humidity"
  let presPath := databasePath ++ "/pressure"
  let latPath := databasePath ++ "/latitude"
  let lngPath := databasePath ++ "/longitude"
  let altPath := databasePath ++ "/altitude"
  let speedPath := databasePath ++ "/speed"
  let hdopPath := databasePath ++ "/hdop"
  let satellitesPath := databasePath ++ "/satellites"
  let timeUTCPath := databasePath ++ "/timeUTC"
  let temperature := env.bmeTemperature
  let humidity := env.bmeHumidity
  let pressure := env.bmePressureRaw / 100
  let s1 : State :=
    { s with uid := uid, databasePath := databasePath,
             tempPath := tempPath, humPath := humPath, presPath := presPath,
             latPath := latPath, lngPath := lngPath, altPath := altPath,
             speedPath := speedPath, hdopPath := hdopPath,
             satellitesPath := satellitesPath, timeUTCPath := timeUTCPath,
             temperature := temperature, humidity := humidity,
             pressure := pressure }
  -- `if (gps.location.isValid())` snapshot block (lines 175-211)
  let s2 : State :=
    if s1.gps.valid then
      { s1 with latitude := s1.gps.lat, longitude := s1.gps.lng,
                altitude := s1.gps.altMeters, speed := s1.gps.speedKmph,
                hdop := (s1.gps.hdopValue : ℚ) / 100,
                satellites := s1.gps.satellitesValue,
                timeUTC := fmtTimeUTC s1.gps }
    else s1
  let logs : List Output :=
    [Output.serialLine ("User UID: " ++ uid ++ "\n")] ++
    (if s1.gps.valid then [] else [Output.serialLine "GPS location not valid yet"]) ++
    [Output.serialLine ("Writing to: " ++ s2.tempPath)]
  let sensorUploads : List Output :=
    [Output.upload ⟨s2.tempPath, Value.vfloat s2.temperature, "RTDB_Send_Temperature"⟩,
     Output.upload ⟨s2.humPath, Value.vfloat s2.humidity, "RTDB_Send_Humidity"⟩,
     Output.upload ⟨s2.presPath, Value.vfloat s2.pressure, "RTDB_Send_Pressure"⟩]
  -- `if (gps.location.isValid())` upload block (lines 221-230)
  let gpsUploads : List Output :=
    if s2.gps.valid then
      [Output.upload ⟨s2.latPath, Value.vdouble s2.latitude, "RTDB_Send_Latitude"⟩,
       Output.upload ⟨s2.lngPath, Value.vdouble s2.longitude, "RTDB_Send_Longitude"⟩,
       Output.upload ⟨s2.altPath, Value.vdouble s2.altitude, "RTDB_Send_Altitude"⟩,
       Output.upload ⟨s2.speedPath, Value.vdouble s2.speed, "RTDB_Send_Speed"⟩,
       Output.upload ⟨s2.hdopPath, Value.vdouble s2.hdop, "RTDB_Send_HDOP"⟩,
       Output.upload ⟨s2.satellitesPath, Value.vint s2.satellites, "RTDB_Send_Satellites"⟩,
       Output.upload ⟨s2.timeUTCPath, Value.vstr s2.timeUTC, "RTDB_Send_TimeUTC"⟩]
    else []
  (s2, logs ++ sensorUploads ++ gpsUploads)

/-- One iteration of `loop()` (main.cpp lines 130-233): drain the GPS byte
stream, then — only if authentication is ready and the 10-second gate
fires — update `lastSendTime` and run the tick body. -/
def loopStep (enc : GpsParser → Nat → GpsParser) (env : Env) (s : State) :
    State × List Output :=
  let s0 : State := { s with gps := drainGps enc env.gpsBytes s.gps }
  if env.ready then
    let t := shouldTick s0.lastSendTime env.millis
    if t.1 then tickBody env { s0 with lastSendTime := t.2 }
    else ({ s0 with lastSendTime := t.2 }, [])
  else (s0, [])

/-- Extract the upload calls from an output trace. -/
def uploadsOf (outs : List Output) : List Upload :=
  outs.filterMap fun o =>
    match o with
    | Output.upload u => some u
    | _ => none

/-- The task tags of the seven GPS-field uploads. -/
def gpsTags : List String :=
  ["RTDB_Send_Latitude", "RTDB_Send_Longitude", "RTDB_Send_Altitude",
   "RTDB_Send_Speed", "RTDB_Send_HDOP", "RTDB_Send_Satellites",
   "RTDB_Send_TimeUTC"]

/-- The ten remote field names of the database paths. -/
def fieldNames : List String :=
  ["temperature", "humidity", "pressure", "latitude", "longitude",
   "altitude", "speed", "hdop", "satellites", "timeUTC"]

/-- The expected value of a GPS-field upload, as decoded from a given parser
state (the snapshot assignments of main.cpp lines 177-190). -/
def gpsValueOf (g : GpsParser) (tag : String) : Option Value :=
  if tag = "RTDB_Send_Latitude" then some (Value.vdouble g.lat)
  else if tag = "RTDB_Send_Longitude" then some (Value.vdouble g.lng)
  else if tag = "RTDB_Send_Altitude" then some (Value.vdouble g.altMeters)
  else if tag = "RTDB_Send_Speed" then some (Value.vdouble g.speedKmph)
  else if tag = "RTDB_Send_HDOP" then
    some (Value.vdouble ((g.hdopValue : ℚ) / 100))
  else if tag = "RTDB_Send_Satellites" then some (Value.vint g.satellitesValue)
  else if tag = "RTDB_Send_TimeUTC" then some (Value.vstr (fmtTimeUTC g))
  else none

/-- Outcome of a phase of `setup()` that may never return. -/
inductive SetupOutcome where
  | halted (logs : List Output)
  | completed (s : State) (logs : List Output)
deriving DecidableEq

/-- Function `initBME()` (main.cpp lines 81-90): on `bme.begin(0x76)` failure, print a
diagnostic and spin forever in `while (1);`, never returning. -/
def initBME (bmeOk : Bool) : SetupOutcome :=
  if bmeOk then
    SetupOutcome.completed initialState
      [Output.serialLine "BME280 Initialized with success"]
  else
    SetupOutcome.halted
      [Output.serialLine "Could not find a valid BME280 sensor, check wiring!"]

/-- Function `setup()` (main.cpp lines 99-128): BME280 init (fatal on failure), GPS
serial init, Wi-Fi join, Firebase init. The Wi-Fi busy-wait and the vendor
Firebase initialization are modelled only by their observable requests. -/
def setup (bmeOk : Bool) : SetupOutcome :=
  match initBME bmeOk with
  | SetupOutcome.halted logs => SetupOutcome.halted logs
  | SetupOutcome.completed s logs =>
      SetupOutcome.completed s
        (logs ++
         [Output.serialLine "GPS Serial started at 9600 baud rate",
          Output.wifiBegin WIFI_SSID WIFI_PASSWORD])

/-- A whole run of the program: `setup()` followed by one `loop()` iteration
per environment in `envs`; if setup halts, no iteration ever runs and the
trace ends with the halt diagnostics. -/
def run (enc : GpsParser → Nat → GpsParser) (bmeOk : Bool)
    (envs : List Env) : List Output :=
  match setup bmeOk with
  | SetupOutcome.halted logs => logs
  | SetupOutcome.completed s0 logs =>
      logs ++
      (envs.foldl
        (fun (p : State × List Output) e =>
          let r := loopStep enc e p.1
          (r.1, p.2 ++ r.2))
        (s0, [])).2

/-- Modelled from the spec: the vendor SDK result object (`AsyncResult`)
delivered to the upload/auth callback, a tagged value that is exactly one of
Event, Debug, Error, or Payload — or not yet a result at all
(`isResult() = false`). Each case carries the task identifier (`uid()`) and
its message/code/payload content. -/
inductive AsyncResult where
  | noResult
  | event (taskId message : String) (code : Int)
  | debug (taskId message : String)
  | error (taskId message : String) (code : Int)
  | payload (taskId text : String)
deriving DecidableEq

/-- Accessor `aResult.isResult()`. -/
def AsyncResult.isResult : AsyncResult → Bool
  | AsyncResult.noResult => false
  | _ => true

/-- Accessor `aResult.isEvent()`. -/
def AsyncResult.isEvent : AsyncResult → Bool
  | AsyncResult.event _ _ _ => true
  | _ => false

/-- Accessor `aResult.isDebug()`. -/
def AsyncResult.isDebug : AsyncResult → Bool
  | AsyncResult.debug _ _ => true
  | _ => false

/-- Accessor `aResult.isError()`. -/
def AsyncResult.isError : AsyncResult → Bool
  | AsyncResult.error _ _ _ => true
  | _ => false

/-- Accessor `aResult.available()`: a payload response is available. -/
def AsyncResult.available : AsyncResult → Bool
  | AsyncResult.payload _ _ => true
  | _ => false

/-- Accessor `aResult.uid()`: the task identifier. -/
def AsyncResult.taskUid : AsyncResult → String
  | AsyncResult.noResult => ""
  | AsyncResult.event t _ _ => t
  | AsyncResult.debug t _ => t
  | AsyncResult.error t _ _ => t
  | AsyncResult.payload t _ => t

/-- Accessor `aResult.eventLog().message()` (empty for other cases). -/
def AsyncResult.eventMessage : AsyncResult → String
  | AsyncResult.event _ m _ => m
  | _ => ""

/-- Accessor `aResult.eventLog().code()` (zero for other cases). -/
def AsyncResult.eventCode : AsyncResult → Int
  | AsyncResult.event _ _ c => c
  | _ => 0

/-- Accessor `aResult.debug()` (empty for other cases). -/
def AsyncResult.debugMessage : AsyncResult → String
  | AsyncResult.debug _ m => m
  | _ => ""

/-- Accessor `aResult.error().message()` (empty for other cases). -/
def AsyncResult.errorMessage : AsyncResult → String
  | AsyncResult.error _ m _ => m
  | _ => ""

/-- Accessor `aResult.error().code()` (zero for other cases). -/
def AsyncResult.errorCode : AsyncResult → Int
  | AsyncResult.error _ _ c => c
  | _ => 0

/-- Accessor `aResult.c_str()`: the raw payload text (empty for other cases). -/
def AsyncResult.payloadText : AsyncResult → String
  | AsyncResult.payload _ p => p
  | _ => ""

/-- Handler `processData(AsyncResult&)` (main.cpp lines 235-251): early-return when
not a result; otherwise four independent checks, each printing one log line
when its flag is set. Returns the printed lines in order. -/
def processData (aResult : AsyncResult) : List String :=
  if !aResult.isResult then [] else
    (if aResult.isEvent then
      ["Event task: " ++ aResult.taskUid ++ ", msg: " ++ aResult.eventMessage ++
       ", code: " ++ toString aResult.eventCode ++ "\n"] else []) ++
    (if aResult.isDebug then
      ["Debug task: " ++ aResult.taskUid ++ ", msg: " ++ aResult.debugMessage ++
       "\n"] else []) ++
    (if aResult.isError then
      ["Error task: " ++ aResult.taskUid ++ ", msg: " ++ aResult.errorMessage ++
       ", code: " ++ toString aResult.errorCode ++ "\n"] else []) ++
    (if aResult.available then
      ["task: " ++ aResult.taskUid ++ ", payload: " ++ aResult.payloadText ++
       "\n"] else [])

/-- The callback as a step over the program state: `processData` only calls
`Firebase.printf`; it reads and writes none of the globals and issues no
`Database.set` call, so its observable effect is its log lines and the
state passes through. -/
def processDataStep (s : State) (aResult : AsyncResult) :
    State × List Output :=
  (s, (processData aResult).map Output.serialLine)

/-- A trivial parser step that ignores every byte; used to instantiate the
universally quantified parser in concrete scenarios. -/
def encId : GpsParser → Nat → GpsParser := fun g _ => g

/-- A concrete environment: ready flag `r`, uid `u`, `millis() = t`, no GPS
bytes pending, BME280 reading 21.5 °C / 50 % / 101300 Pa. -/
def envAt (t : Nat) (u : String) (r : Bool) : Env :=
  { ready := r, appUid := u, millis := t, gpsBytes := [],
    bmeTemperature := 43/2, bmeHumidity := 50, bmePressureRaw := 101300 }

/-- A concrete program state whose GPS parser holds a decoded valid fix. -/
def fixState : State :=
  { initialState with
      gps := { valid := true, lat := 1, lng := 2, altMeters := 3,
               speedKmph := 4, hdopValue := 150, satellitesValue := 7,
               year := 2026, month := 10, day := 11, hour := 12,
               minute := 30, second := 45 } }

section GateLemmas

/-- When the elapsed-time condition holds, the gate fires and stores `now`. -/
theorem shouldTick_eq_true (l n : Nat) (h : sendInterval ≤ usub32 n l) :
    shouldTick l n = (true, n) := by
  simp [shouldTick, h]

/-- When the elapsed-time condition fails, the gate does not fire and the
stored `lastSendTime` is unchanged. -/
theorem shouldTick_eq_false (l n : Nat) (h : ¬ sendInterval ≤ usub32 n l) :
    shouldTick l n = (false, l) := by
  simp [shouldTick, h]

/-- The gate fires exactly when the unsigned elapsed time reaches the
interval. -/
theorem shouldTick_fst_iff (l n : Nat) :
    (shouldTick l n).1 = true ↔ sendInterval ≤ usub32 n l := by
  by_cases h : sendInterval ≤ usub32 n l <;> simp [shouldTick, h]

/-- A non-firing gate leaves the stored time unchanged. -/
theorem shouldTick_false_eq (l n : Nat) (h : (shouldTick l n).1 = false) :
    shouldTick l n = (false, l) := by
  by_cases hc : sendInterval ≤ usub32 n l
  · rw [shouldTick_eq_true l n hc] at h ⊢
    exact absurd h (by simp)
  · exact shouldTick_eq_false l n hc

/-- With authentication not ready, a loop iteration only drains the GPS
stream. -/
theorem loopStep_notReady (enc : GpsParser → Nat → GpsParser) (env : Env)
    (s : State) (hr : env.ready = false) :
    loopStep enc env s =
      ({ s with gps := drainGps enc env.gpsBytes s.gps }, []) := by
  simp [loopStep, hr]

/-- With authentication ready but the gate not firing, a loop iteration only
drains the GPS stream: no output and no other state change. -/
theorem loopStep_nofire (enc : GpsParser → Nat → GpsParser) (env : Env)
    (s : State) (hr : env.ready = true)
    (hf : (shouldTick s.lastSendTime env.millis).1 = false) :
    loopStep enc env s =
      ({ s with gps := drainGps enc env.gpsBytes s.gps }, []) := by
  have hl : ({ s with gps := drainGps enc env.gpsBytes s.gps } :
      State).lastSendTime = s.lastSendTime := rfl
  simp only [loopStep, hr, if_true, hl, shouldTick_false_eq _ _ hf]
  simp

/-- With authentication ready and the gate firing, a loop iteration drains
the GPS stream, stores the current time in `lastSendTime`, and runs the tick
body. -/
theorem loopStep_fire (enc : GpsParser → Nat → GpsParser) (env : Env)
    (s : State) (hr : env.ready = true)
    (hf : sendInterval ≤ usub32 env.millis s.lastSendTime) :
    loopStep enc env s =
      tickBody env
        { s with gps := drainGps enc env.gpsBytes s.gps,
                 lastSendTime := env.millis } := by
  have hl : ({ s with gps := drainGps enc env.gpsBytes s.gps } :
      State).lastSendTime = s.lastSendTime := rfl
  simp only [loopStep, hr, if_true, hl, shouldTick_eq_true _ _ hf]

end GateLemmas

section TickLemmas

/-- The upload calls issued by one tick: the three sensor fields always,
and the seven GPS fields exactly when the fix is valid, each value taken
from the parser state at the tick. -/
theorem tickBody_uploads (env : Env) (s : State) :
    uploadsOf (tickBody env s).2 =
      [⟨"UsersData/" ++ env.appUid ++ "/temperature",
        Value.vfloat env.bmeTemperature, "RTDB_Send_Temperature"⟩,
       ⟨"UsersData/" ++ env.appUid ++ "/humidity",
        Value.vfloat env.bmeHumidity, "RTDB_Send_Humidity"⟩,
       ⟨"UsersData/" ++ env.appUid ++ "/pressure",
        Value.vfloat (env.bmePressureRaw / 100), "RTDB_Send_Pressure"⟩] ++
      (if s.gps.valid then
        [⟨"UsersData/" ++ env.appUid ++ "/latitude",
          Value.vdouble s.gps.lat, "RTDB_Send_Latitude"⟩,
         ⟨"UsersData/" ++ env.appUid ++ "/longitude",
          Value.vdouble s.gps.lng, "RTDB_Send_Longitude"⟩,
         ⟨"UsersData/" ++ env.appUid ++ "/altitude",
          Value.vdouble s.gps.altMeters, "RTDB_Send_Altitude"⟩,
         ⟨"UsersData/" ++ env.appUid ++ "/speed",
          Value.vdouble s.gps.speedKmph, "RTDB_Send_Speed"⟩,
         ⟨"UsersData/" ++ env.appUid ++ "/hdop",
          Value.vdouble ((s.gps.hdopValue : ℚ) / 100), "RTDB_Send_HDOP"⟩,
         ⟨"UsersData/" ++ env.appUid ++ "/satellites",
          Value.vint s.gps.satellitesValue, "RTDB_Send_Satellites"⟩,
         ⟨"UsersData/" ++ env.appUid ++ "/timeUTC",
          Value.vstr (fmtTimeUTC s.gps), "RTDB_Send_TimeUTC"⟩]
       else []) := by
  by_cases hv : s.gps.valid <;>
    simp [tickBody, uploadsOf, hv]

/-- The tick body never writes the GPS parser state. -/
theorem tickBody_gps_unchanged (env : Env) (s : State) :
    (tickBody env s).1.gps = s.gps := by
  by_cases hv : s.gps.valid <;> simp [tickBody, hv]

/-- Re-associating the path concatenation of the source
(`("UsersData/" + uid) + "/<field>"`) into the spec's shape
(`"UsersData/" + uid + "/" + field`). -/
theorem path_reassoc (uid sfx f : String) (h : sfx = "/" ++ f) :
    ("UsersData/" ++ uid) ++ sfx = "UsersData/" ++ uid ++ "/" ++ f := by
  rw [h, ← String.append_assoc]

/-- After a tick, the uid and all eleven path variables hold the strings
derived from the current `app.getUid()`, and `lastSendTime` is not touched
by the tick body itself. -/
theorem tickBody_state_fields (env : Env) (s : State) :
    (tickBody env s).1.uid = env.appUid ∧
    (tickBody env s).1.databasePath = "UsersData/" ++ env.appUid ∧
    (tickBody env s).1.tempPath = "UsersData/" ++ env.appUid ++ "/temperature" ∧
    (tickBody env s).1.humPath = "UsersData/" ++ env.appUid ++ "/humidity" ∧
    (tickBody env s).1.presPath = "UsersData/" ++ env.appUid ++ "/pressure" ∧
    (tickBody env s).1.latPath = "UsersData/" ++ env.appUid ++ "/latitude" ∧
    (tickBody env s).1.lngPath = "UsersData/" ++ env.appUid ++ "/longitude" ∧
    (tickBody env s).1.altPath = "UsersData/" ++ env.appUid ++ "/altitude" ∧
    (tickBody env s).1.speedPath = "UsersData/" ++ env.appUid ++ "/speed" ∧
    (tickBody env s).1.hdopPath = "UsersData/" ++ env.appUid ++ "/hdop" ∧
    (tickBody env s).1.satellitesPath =
      "UsersData/" ++ env.appUid ++ "/satellites" ∧
    (tickBody env s).1.timeUTCPath = "UsersData/" ++ env.appUid ++ "/timeUTC" ∧
    (tickBody env s).1.lastSendTime = s.lastSendTime := by
  by_cases hv : s.gps.valid <;> simp [tickBody, hv]

/-- Every tick logs the current user uid (`Firebase.printf("User UID: …")`,
main.cpp line 153) as part of the path-recomputation block. -/
theorem tickBody_logs_uid (env : Env) (s : State) :
    Output.serialLine ("User UID: " ++ env.appUid ++ "\n") ∈
      (tickBody env s).2 := by
  by_cases hv : s.gps.valid <;> simp [tickBody, hv]

end TickLemmas

/-- C1: on a tick (authentication ready, gate firing), when the GPS fix is
invalid the Uploader receives exactly 3 calls — temperature, humidity,
pressure — and no GPS-field call; when the fix is valid it receives exactly
10 calls, the 3 sensor fields followed by latitude, longitude, altitude,
speed, hdop, satellites, timeUTC. -/
theorem C1_upload_counts (enc : GpsParser → Nat → GpsParser) (env : Env)
    (s : State) (hr : env.ready = true)
    (hf : sendInterval ≤ usub32 env.millis s.lastSendTime) :
    ((drainGps enc env.gpsBytes s.gps).valid = false →
      (uploadsOf (loopStep enc env s).2).length = 3 ∧
      (uploadsOf (loopStep enc env s).2).map Upload.tag =
        ["RTDB_Send_Temperature", "RTDB_Send_Humidity",
         "RTDB_Send_Pressure"] ∧
      ∀ u ∈ uploadsOf (loopStep enc env s).2, u.tag ∉ gpsTags) ∧
    ((drainGps enc env.gpsBytes s.gps).valid = true →
      (uploadsOf (loopStep enc env s).2).length = 10 ∧
      (uploadsOf (loopStep enc env s).2).map Upload.tag =
        ["RTDB_Send_Temperature", "RTDB_Send_Humidity", "RTDB_Send_Pressure",
         "RTDB_Send_Latitude", "RTDB_Send_Longitude", "RTDB_Send_Altitude",
         "RTDB_Send_Speed", "RTDB_Send_HDOP", "RTDB_Send_Satellites",
         "RTDB_Send_TimeUTC"]) := by
  rw [loopStep_fire enc env s hr hf, tickBody_uploads]
  constructor
  · intro hv
    simp only [hv] at *
    refine ⟨by simp, by simp, ?_⟩
    intro u hu
    simp at hu
    rcases hu with h | h | h <;> subst h <;> simp [gpsTags]
  · intro hv
    simp only [hv] at *
    exact ⟨by simp, by simp⟩

/-- C1 witness: with uid `abc123` at a tick at t = 10000 from the initial
state (no fix) the trace holds exactly 3 uploads; from a state holding a
valid fix it holds exactly 10. -/
theorem C1_upload_counts_witness :
    (uploadsOf (loopStep encId (envAt 10000 "abc123" true)
      initialState).2).length = 3 ∧
    (uploadsOf (loopStep encId (envAt 10000 "abc123" true)
      fixState).2).length = 10 :=
  ⟨((C1_upload_counts encId (envAt 10000 "abc123" true) initialState rfl
      (by decide)).1 (by decide)).1,
   ((C1_upload_counts encId (envAt 10000 "abc123" true) fixState rfl
      (by decide)).2 (by decide)).1⟩

/-- C3: every upload's remote path is `"UsersData/" ++ uid ++ "/" ++ field`
for one of the ten fixed field names, and the temperature upload carries the
just-read temperature value at path `…/temperature`. -/
theorem C3_remote_paths (enc : GpsParser → Nat → GpsParser) (env : Env)
    (s : State) (hr : env.ready = true)
    (hf : sendInterval ≤ usub32 env.millis s.lastSendTime) :
    (∀ u ∈ uploadsOf (loopStep enc env s).2, ∃ f ∈ fieldNames,
        u.path = "UsersData/" ++ env.appUid ++ "/" ++ f) ∧
    (⟨"UsersData/" ++ env.appUid ++ "/temperature",
       Value.vfloat env.bmeTemperature, "RTDB_Send_Temperature"⟩ : Upload) ∈
      uploadsOf (loopStep enc env s).2 := by
  rw [loopStep_fire enc env s hr hf, tickBody_uploads]
  constructor
  · intro u hu
    by_cases hv : (drainGps enc env.gpsBytes s.gps).valid <;>
      simp only [hv] at hu <;> simp at hu
    · rcases hu with h | h | h | h | h | h | h | h | h | h <;> subst h
      · exact ⟨"temperature", by simp [fieldNames],
          path_reassoc env.appUid "/temperature" "temperature" rfl⟩
      · exact ⟨"humidity", by simp [fieldNames],
          path_reassoc env.appUid "/humidity" "humidity" rfl⟩
      · exact ⟨"pressure", by simp [fieldNames],
          path_reassoc env.appUid "/pressure" "pressure" rfl⟩
      · exact ⟨"latitude", by simp [fieldNames],
          path_reassoc env.appUid "/latitude" "latitude" rfl⟩
      · exact ⟨"longitude", by simp [fieldNames],
          path_reassoc env.appUid "/longitude" "longitude" rfl⟩
      · exact ⟨"altitude", by simp [fieldNames],
          path_reassoc env.appUid "/altitude" "altitude" rfl⟩
      · exact ⟨"speed", by simp [fieldNames],
          path_reassoc env.appUid "/speed" "speed" rfl⟩
      · exact ⟨"hdop", by simp [fieldNames],
          path_reassoc env.appUid "/hdop" "hdop" rfl⟩
      · exact ⟨"satellites", by simp [fieldNames],
          path_reassoc env.appUid "/satellites" "satellites" rfl⟩
      · exact ⟨"timeUTC", by simp [fieldNames],
          path_reassoc env.appUid "/timeUTC" "timeUTC" rfl⟩
    · rcases hu with h | h | h <;> subst h
      · exact ⟨"temperature", by simp [fieldNames],
          path_reassoc env.appUid "/temperature" "temperature" rfl⟩
      · exact ⟨"humidity", by simp [fieldNames],
          path_reassoc env.appUid "/humidity" "humidity" rfl⟩
      · exact ⟨"pressure", by simp [fieldNames],
          path_reassoc env.appUid "/pressure" "pressure" rfl⟩
  · simp

/-- C3 witness: with uid `abc123` and temperature 21.5, the tick issues an
upload with path `UsersData/abc123/temperature` and value 21.5. -/
theorem C3_remote_paths_witness :
    (⟨"UsersData/abc123/temperature", Value.vfloat (43/2),
      "RTDB_Send_Temperature"⟩ : Upload) ∈
      uploadsOf (loopStep encId (envAt 10000 "abc123" true)
        initialState).2 :=
  (C3_remote_paths encId (envAt 10000 "abc123" true) initialState rfl
    (by decide)).2

/-- C10: any GPS-field upload issued by a loop iteration carries a value
decoded from the GPS fix as it stands at that same tick (after the current
iteration's byte drain), and that fix is valid — stale GPS values retained
in the globals from an earlier tick are never uploaded. -/
theorem C10_no_stale_gps (enc : GpsParser → Nat → GpsParser) (env : Env)
    (s : State) :
    ∀ u ∈ uploadsOf (loopStep enc env s).2, u.tag ∈ gpsTags →
      (drainGps enc env.gpsBytes s.gps).valid = true ∧
      some u.value = gpsValueOf (drainGps enc env.gpsBytes s.gps) u.tag := by
  intro u hu htag
  by_cases hr : env.ready = true
  case neg =>
    rw [loopStep_notReady enc env s (by simpa using hr)] at hu
    simp [uploadsOf] at hu
  by_cases hf : (shouldTick s.lastSendTime env.millis).1 = true
  case neg =>
    rw [loopStep_nofire enc env s hr (by simpa using hf)] at hu
    simp [uploadsOf] at hu
  rw [loopStep_fire enc env s hr ((shouldTick_fst_iff _ _).1 hf),
    tickBody_uploads] at hu
  by_cases hv : (drainGps enc env.gpsBytes s.gps).valid <;>
    simp only [hv] at hu <;> simp at hu
  · rcases hu with h | h | h | h | h | h | h | h | h | h <;> subst h
    · simp [gpsTags] at htag
    · simp [gpsTags] at htag
    · simp [gpsTags] at htag
    · exact ⟨hv, by simp [gpsValueOf]⟩
    · exact ⟨hv, by simp [gpsValueOf]⟩
    · exact ⟨hv, by simp [gpsValueOf]⟩
    · exact ⟨hv, by simp [gpsValueOf]⟩
    · exact ⟨hv, by simp [gpsValueOf]⟩
    · exact ⟨hv, by simp [gpsValueOf]⟩
    · exact ⟨hv, by simp [gpsValueOf]⟩
  · rcases hu with h | h | h <;> subst h <;> simp [gpsTags] at htag

/-- C10 witness: at a tick from a state holding a valid fix with
latitude 1, the latitude upload observed in the trace carries exactly the
current fix's latitude. -/
theorem C10_no_stale_gps_witness :
    (drainGps encId (envAt 10000 "abc123" true).gpsBytes
      fixState.gps).valid = true ∧
    some (Value.vdouble 1) =
      gpsValueOf (drainGps encId (envAt 10000 "abc123" true).gpsBytes
        fixState.gps) "RTDB_Send_Latitude" :=
  C10_no_stale_gps encId (envAt 10000 "abc123" true) fixState
    ⟨"UsersData/abc123/latitude", Value.vdouble 1, "RTDB_Send_Latitude"⟩
    (by decide) (by decide)

/-- C2 (amended): the telemetry gate fires and sets `lastTick` to the current
time iff `now - lastTick ≥ 10000` in unsigned 32-bit arithmetic; on a false
return the gate — and the whole loop iteration, apart from GPS draining —
changes nothing. After a check that returned true at `now1`: a check at
`now2` with `now2 - now1 < 10000` (unsigned) returns false, and a check with
`now2 - now1 ≥ 10000` returns true. (The original claim asserted the
within-interval consequence for *every* pair of checks, also when the first
returned false; the counterexample refutes that.) -/
theorem C2_gate_amended :
    (∀ l n, ((shouldTick l n).1 = true ↔ sendInterval ≤ usub32 n l) ∧
      ((shouldTick l n).1 = true → (shouldTick l n).2 = n) ∧
      ((shouldTick l n).1 = false → shouldTick l n = (false, l))) ∧
    (∀ enc env s, env.ready = true →
      (shouldTick s.lastSendTime env.millis).1 = false →
      loopStep enc env s =
        ({ s with gps := drainGps enc env.gpsBytes s.gps }, [])) ∧
    (∀ l n1 n2, (shouldTick l n1).1 = true → usub32 n2 n1 < sendInterval →
      (shouldTick (shouldTick l n1).2 n2).1 = false) ∧
    (∀ l n1 n2, (shouldTick l n1).1 = true → sendInterval ≤ usub32 n2 n1 →
      (shouldTick (shouldTick l n1).2 n2).1 = true) := by
  refine ⟨fun l n => ⟨shouldTick_fst_iff l n, ?_, shouldTick_false_eq l n⟩,
    ?_, ?_, ?_⟩
  · intro h
    rcases (shouldTick_fst_iff l n).1 h with hc
    rw [shouldTick_eq_true l n hc]
  · exact loopStep_nofire
  · intro l n1 n2 h1 hlt
    have hc := (shouldTick_fst_iff l n1).1 h1
    rw [shouldTick_eq_true l n1 hc]
    rw [shouldTick_eq_false n1 n2 (by omega)]
  · intro l n1 n2 h1 hge
    have hc := (shouldTick_fst_iff l n1).1 h1
    rw [shouldTick_eq_true l n1 hc]
    rw [shouldTick_eq_true n1 n2 hge]

/-- C2 witness: concrete instances of the amended gate properties — after a
true check at 10000, a check at 15000 (elapsed 5000) is false and a check at
20000 (elapsed 10000) is true; a false check at millis 5000 leaves the loop
state unchanged apart from GPS draining. -/
theorem C2_gate_amended_witness :
    (shouldTick (shouldTick 0 10000).2 15000).1 = false ∧
    (shouldTick (shouldTick 0 10000).2 20000).1 = true ∧
    loopStep encId (envAt 5000 "abc123" true) initialState =
      ({ initialState with
          gps := drainGps encId (envAt 5000 "abc123" true).gpsBytes
            initialState.gps }, []) :=
  ⟨C2_gate_amended.2.2.1 0 10000 15000 (by decide) (by decide),
   C2_gate_amended.2.2.2 0 10000 20000 (by decide) (by decide),
   C2_gate_amended.2.1 encId (envAt 5000 "abc123" true) initialState rfl
     (by decide)⟩

/-- C2 counterexample: the claim "for every pair of checks with
`now2 - now1 < intervalMillis` the second check returns false" fails when the
first check returned false: with `lastTick = 0`, a check at 5000 returns
false (leaving `lastTick = 0`), and a check at 12000 — only 7000 after the
first — returns true. -/
theorem C2_gate_counterexample :
    (shouldTick 0 5000).1 = false ∧
    usub32 12000 5000 < sendInterval ∧
    (shouldTick (shouldTick 0 5000).2 12000).1 = true := by
  decide

/-- C4 (amended): from the initial state (`lastSendTime = 0` at startup) a
tick check at t = 0 does **not** fire (elapsed time 0 < 10000); a subsequent
check at t = 9999 does not fire; a check at t = 10000 fires. Both at the
gate level and through whole loop iterations (with authentication ready):
the first two iterations emit nothing, the third issues uploads. -/
theorem C4_first_tick_amended :
    (shouldTick initialState.lastSendTime 0).1 = false ∧
    (shouldTick (shouldTick initialState.lastSendTime 0).2 9999).1 = false ∧
    (shouldTick
      (shouldTick (shouldTick initialState.lastSendTime 0).2 9999).2
      10000).1 = true ∧
    (loopStep encId (envAt 0 "abc123" true) initialState).2 = [] ∧
    (loopStep encId (envAt 9999 "abc123" true)
      (loopStep encId (envAt 0 "abc123" true) initialState).1).2 = [] ∧
    uploadsOf (loopStep encId (envAt 10000 "abc123" true)
      (loopStep encId (envAt 9999 "abc123" true)
        (loopStep encId (envAt 0 "abc123" true) initialState).1).1).2 ≠ [] := by
  decide

/-- C4 counterexample: the claim "a tick check at t = 0 fires" is false on
the code: with `lastSendTime` initialized to 0, the gate at `millis() = 0`
computes elapsed time 0 < 10000 and does not fire, and the loop iteration at
t = 0 emits no output at all. -/
theorem C4_first_tick_counterexample :
    (shouldTick initialState.lastSendTime 0).1 = false ∧
    (loopStep encId (envAt 0 "abc123" true) initialState).2 = [] := by
  decide

/-- C5: each invocation of the result handler receives a tagged result with
exactly one of the four case flags set (Event, Debug, Error, Payload), and
the handler logs exactly one line per invocation. -/
theorem C5_result_tagged_once (aResult : AsyncResult)
    (h : aResult.isResult = true) :
    ([aResult.isEvent, aResult.isDebug, aResult.isError,
      aResult.available].count true = 1) ∧
    (processData aResult).length = 1 := by
  cases aResult <;>
    simp [processData, AsyncResult.isResult, AsyncResult.isEvent,
      AsyncResult.isDebug, AsyncResult.isError, AsyncResult.available,
      List.count_cons] at h ⊢

/-- C5 witness: the handler invoked with `Error{code = -1, msg = "timeout"}`
sees exactly one case flag set and logs exactly one line. -/
theorem C5_result_tagged_once_witness :
    ([(AsyncResult.error "RTDB_Send_Temperature" "timeout" (-1)).isEvent,
      (AsyncResult.error "RTDB_Send_Temperature" "timeout" (-1)).isDebug,
      (AsyncResult.error "RTDB_Send_Temperature" "timeout" (-1)).isError,
      (AsyncResult.error "RTDB_Send_Temperature" "timeout" (-1)).available
     ].count true = 1) ∧
    (processData
      (AsyncResult.error "RTDB_Send_Temperature" "timeout" (-1))).length = 1 :=
  C5_result_tagged_once
    (AsyncResult.error "RTDB_Send_Temperature" "timeout" (-1)) rfl

/-- C6: on a failed upload the handler emits exactly the Error log line
(code + message) and nothing else — no upload call is issued from the
handler, and the program state read by subsequent loop iterations is
untouched, so the failure cannot change any later tick's behavior. -/
theorem C6_error_logged_not_retried (s : State) (taskId msg : String)
    (code : Int) :
    processDataStep s (AsyncResult.error taskId msg code) =
      (s, [Output.serialLine ("Error task: " ++ taskId ++ ", msg: " ++ msg ++
        ", code: " ++ toString code ++ "\n")]) ∧
    uploadsOf (processDataStep s (AsyncResult.error taskId msg code)).2 = [] ∧
    (∀ enc env, loopStep enc env
        (processDataStep s (AsyncResult.error taskId msg code)).1 =
      loopStep enc env s) :=
  ⟨rfl, rfl, fun _ _ => rfl⟩

/-- C8: on every loop iteration — whatever the authentication readiness and
whether or not the gate fires — the available GPS bytes are all fed to the
parser, and the rest of the iteration behaves exactly as if it started from
the fed parser state with an empty input buffer (the drain precedes the
gate). -/
theorem C8_gps_drained_unconditionally (enc : GpsParser → Nat → GpsParser)
    (env : Env) (s : State) :
    ((loopStep enc env s).1).gps = drainGps enc env.gpsBytes s.gps ∧
    loopStep enc env s =
      loopStep enc { env with gpsBytes := [] }
        { s with gps := drainGps enc env.gpsBytes s.gps } := by
  constructor
  · by_cases hr : env.ready = true
    · by_cases hf : (shouldTick s.lastSendTime env.millis).1 = true
      · rw [loopStep_fire enc env s hr ((shouldTick_fst_iff _ _).1 hf),
          tickBody_gps_unchanged]
      · rw [loopStep_nofire enc env s hr (by simpa using hf)]
    · rw [loopStep_notReady enc env s (by simpa using hr)]
  · by_cases hr : env.ready = true
    · by_cases hf : (shouldTick s.lastSendTime env.millis).1 = true
      · rw [loopStep_fire enc env s hr ((shouldTick_fst_iff _ _).1 hf),
          loopStep_fire enc { env with gpsBytes := [] }
            { s with gps := drainGps enc env.gpsBytes s.gps } hr
            ((shouldTick_fst_iff _ _).1 hf)]
        rfl
      · rw [loopStep_nofire enc env s hr (by simpa using hf),
          loopStep_nofire enc { env with gpsBytes := [] }
            { s with gps := drainGps enc env.gpsBytes s.gps } hr
            (by simpa using hf)]
        rfl
    · rw [loopStep_notReady enc env s (by simpa using hr),
        loopStep_notReady enc { env with gpsBytes := [] }
          { s with gps := drainGps enc env.gpsBytes s.gps }
          (by simpa using hr)]
      rfl

/-- C9: if BME280 initialization fails at startup the program halts inside
`initBME` forever: setup never completes, the Wi-Fi join request is never
made, and no run of the program ever issues an upload. -/
theorem C9_bme_failure_halts (enc : GpsParser → Nat → GpsParser)
    (envs : List Env) (ssid pw : String) :
    setup false = SetupOutcome.halted
      [Output.serialLine
        "Could not find a valid BME280 sensor, check wiring!"] ∧
    run enc false envs =
      [Output.serialLine
        "Could not find a valid BME280 sensor, check wiring!"] ∧
    uploadsOf (run enc false envs) = [] ∧
    Output.wifiBegin ssid pw ∉ run enc false envs := by
  refine ⟨rfl, rfl, rfl, ?_⟩
  simp [run, setup, initBME]

/-- After a firing tick, `lastSendTime` holds the tick's `millis()` reading,
the uid and all path variables hold the strings recomputed from the current
`app.getUid()`, and the tick's output contains the `User UID` log line
printed by the path-recomputation block. -/
theorem loopStep_tick_state (enc : GpsParser → Nat → GpsParser) (env : Env)
    (s : State) (hr : env.ready = true)
    (hf : sendInterval ≤ usub32 env.millis s.lastSendTime) :
    ((loopStep enc env s).1).lastSendTime = env.millis ∧
    ((loopStep enc env s).1).uid = env.appUid ∧
    ((loopStep enc env s).1).databasePath = "UsersData/" ++ env.appUid ∧
    ((loopStep enc env s).1).tempPath =
      "UsersData/" ++ env.appUid ++ "/temperature" ∧
    ((loopStep enc env s).1).humPath =
      "UsersData/" ++ env.appUid ++ "/humidity" ∧
    ((loopStep enc env s).1).presPath =
      "UsersData/" ++ env.appUid ++ "/pressure" ∧
    ((loopStep enc env s).1).latPath =
      "UsersData/" ++ env.appUid ++ "/latitude" ∧
    ((loopStep enc env s).1).lngPath =
      "UsersData/" ++ env.appUid ++ "/longitude" ∧
    ((loopStep enc env s).1).altPath =
      "UsersData/" ++ env.appUid ++ "/altitude" ∧
    ((loopStep enc env s).1).speedPath =
      "UsersData/" ++ env.appUid ++ "/speed" ∧
    ((loopStep enc env s).1).hdopPath =
      "UsersData/" ++ env.appUid ++ "/hdop" ∧
    ((loopStep enc env s).1).satellitesPath =
      "UsersData/" ++ env.appUid ++ "/satellites" ∧
    ((loopStep enc env s).1).timeUTCPath =
      "UsersData/" ++ env.appUid ++ "/timeUTC" ∧
    Output.serialLine ("User UID: " ++ env.appUid ++ "\n") ∈
      (loopStep enc env s).2 := by
  rw [loopStep_fire enc env s hr hf]
  have h := tickBody_state_fields env
    { s with gps := drainGps enc env.gpsBytes s.gps,
             lastSendTime := env.millis }
  exact ⟨h.2.2.2.2.2.2.2.2.2.2.2.2, h.1, h.2.1, h.2.2.1, h.2.2.2.1,
    h.2.2.2.2.1, h.2.2.2.2.2.1, h.2.2.2.2.2.2.1, h.2.2.2.2.2.2.2.1,
    h.2.2.2.2.2.2.2.2.1, h.2.2.2.2.2.2.2.2.2.1, h.2.2.2.2.2.2.2.2.2.2.1,
    h.2.2.2.2.2.2.2.2.2.2.2.1, tickBody_logs_uid env _⟩

/-- C7 (amended): the path-recomputation block runs on **every** firing
tick, not only the first — witnessed by the `User UID` log line the block
prints on the later tick — but when the uid reported by the auth SDK is the
same at both ticks, the recomputation leaves the uid, the database path and
all ten field paths with values identical to those after the first tick. -/
theorem C7_paths_amended (enc : GpsParser → Nat → GpsParser) (e1 e2 : Env)
    (s : State) (h1r : e1.ready = true)
    (h1f : sendInterval ≤ usub32 e1.millis s.lastSendTime)
    (h2r : e2.ready = true)
    (h2f : sendInterval ≤ usub32 e2.millis e1.millis)
    (huid : e2.appUid = e1.appUid) :
    Output.serialLine ("User UID: " ++ e2.appUid ++ "\n") ∈
      (loopStep enc e2 (loopStep enc e1 s).1).2 ∧
    ((loopStep enc e2 (loopStep enc e1 s).1).1).uid =
      ((loopStep enc e1 s).1).uid ∧
    ((loopStep enc e2 (loopStep enc e1 s).1).1).databasePath =
      ((loopStep enc e1 s).1).databasePath ∧
    ((loopStep enc e2 (loopStep enc e1 s).1).1).tempPath =
      ((loopStep enc e1 s).1).tempPath ∧
    ((loopStep enc e2 (loopStep enc e1 s).1).1).humPath =
      ((loopStep enc e1 s).1).humPath ∧
    ((loopStep enc e2 (loopStep enc e1 s).1).1).presPath =
      ((loopStep enc e1 s).1).presPath ∧
    ((loopStep enc e2 (loopStep enc e1 s).1).1).latPath =
      ((loopStep enc e1 s).1).latPath ∧
    ((loopStep enc e2 (loopStep enc e1 s).1).1).lngPath =
      ((loopStep enc e1 s).1).lngPath ∧
    ((loopStep enc e2 (loopStep enc e1 s).1).1).altPath =
      ((loopStep enc e1 s).1).altPath ∧
    ((loopStep enc e2 (loopStep enc e1 s).1).1).speedPath =
      ((loopStep enc e1 s).1).speedPath ∧
    ((loopStep enc e2 (loopStep enc e1 s).1).1).hdopPath =
      ((loopStep enc e1 s).1).hdopPath ∧
    ((loopStep enc e2 (loopStep enc e1 s).1).1).satellitesPath =
      ((loopStep enc e1 s).1).satellitesPath ∧
    ((loopStep enc e2 (loopStep enc e1 s).1).1).timeUTCPath =
      ((loopStep enc e1 s).1).timeUTCPath := by
  have H1 := loopStep_tick_state enc e1 s h1r h1f
  have h2f' : sendInterval ≤
      usub32 e2.millis ((loopStep enc e1 s).1).lastSendTime := by
    rw [H1.1]; exact h2f
  have H2 := loopStep_tick_state enc e2 ((loopStep enc e1 s).1) h2r h2f'
  obtain ⟨-, hu1, hdb1, ht1, hh1, hp1, hla1, hlo1, hal1, hsp1, hhd1, hsa1,
    htu1, -⟩ := H1
  obtain ⟨-, hu2, hdb2, ht2, hh2, hp2, hla2, hlo2, hal2, hsp2, hhd2, hsa2,
    htu2, hlog2⟩ := H2
  refine ⟨hlog2, ?_, ?_, ?_, ?_, ?_, ?_, ?_, ?_, ?_, ?_, ?_, ?_⟩ <;>
    rw [huid] at * <;> simp_all

/-- C7 witness: two firing ticks at t = 10000 and t = 20000 with the stable
uid `abc123`: the second tick still logs the uid (the block runs), and the
temperature path after the second tick equals the one after the first. -/
theorem C7_paths_amended_witness :
    Output.serialLine ("User UID: " ++ "abc123" ++ "\n") ∈
      (loopStep encId (envAt 20000 "abc123" true)
        (loopStep encId (envAt 10000 "abc123" true) initialState).1).2 ∧
    ((loopStep encId (envAt 20000 "abc123" true)
        (loopStep encId (envAt 10000 "abc123" true)
          initialState).1).1).tempPath =
      ((loopStep encId (envAt 10000 "abc123" true)
        initialState).1).tempPath :=
  ⟨(C7_paths_amended encId (envAt 10000 "abc123" true)
      (envAt 20000 "abc123" true) initialState rfl (by decide) rfl
      (by decide) rfl).1,
   (C7_paths_amended encId (envAt 10000 "abc123" true)
      (envAt 20000 "abc123" true) initialState rfl (by decide) rfl
      (by decide) rfl).2.2.2.1⟩

/-- C7 counterexample: the claim "on every later tick the path variables are
left unchanged (not recomputed)" is false on the code: the tick body
reassigns the paths from `app.getUid()` on every tick, so when the SDK
reports a different uid on the second tick (here `uidA` then `uidB`), the
temperature path variable after the second tick differs from its value
after the first. -/
theorem C7_paths_counterexample :
    ((loopStep encId (envAt 20000 "uidB" true)
        (loopStep encId (envAt 10000 "uidA" true)
          initialState).1).1).tempPath ≠
      ((loopStep encId (envAt 10000 "uidA" true)
        initialState).1).tempPath := by
  decide

end WeatherDrone
